import Mathlib

/-!
Verification of the hybrid password + time-lock encryption core of
password-timelock-crypto.

The orchestration code (src/encryption/hybrid.ts and
src/encryption/timelock.ts) is embedded shallowly below.  The two external
cryptographic libraries (openpgp and tlock-js) are not part of the
repository; their operations are modelled from the interface contracts in
the specification, with each such definition marked by a doc comment
starting with the words Modelled from the spec.  Opaque armored strings
produced by the external libraries are modelled by structured values
carrying exactly the information the corresponding format serializes.
Network effects and the process-wide chain-client cache are made explicit
by threading a NetState value through every operation that can touch the
network in the TypeScript code.
-/

deriving instance DecidableEq for Except

namespace PTC

/-- Environment configuration loaded by src/env.ts (three required string
settings; their runtime values are unknown, so every theorem quantifies
over them). -/
structure Env where
  DRAND_CHAIN_URL : String
  DRAND_CHAIN_HASH : String
  DRAND_PUBLIC_KEY : String
deriving DecidableEq

/-- Chain description record, following the ChainInfo shape used in
src/encryption/timelock.ts. -/
structure ChainInfo where
  public_key : String
  period : Int
  genesis_time : Int
  hash : String
  groupHash : String
  schemeID : String
deriving DecidableEq

/-- CHAIN_INFO constant from src/encryption/timelock.ts: quicknet chain,
period 3 seconds, genesis time 1692803367 seconds. -/
def CHAIN_INFO (env : Env) : ChainInfo :=
  { public_key := env.DRAND_PUBLIC_KEY
    period := 3
    genesis_time := 1692803367
    hash := env.DRAND_CHAIN_HASH
    groupHash := "f477d5c89f21a17c863a7f937c6a6d15859414d2be09cd448d4279af331c5d3e"
    schemeID := "bls-unchained-g1-rfc9380" }

/-- Error kinds of the failure taxonomy in the specification, plus the
TypeError thrown by encryptWithTimelock on an invalid date.  The code
itself defines no error classes; each failure surfaces as the raw error of
the layer that produced it, and these constructors name those layers'
failure kinds.  The invalidBundle constructor is in the taxonomy of the
specification but, as proved below, is never produced by the code. -/
inductive HybridError
  | keyGeneration
  | encryption
  | timeLock
  | timeLockNotYetAvailable
  | password
  | payloadIntegrity
  | invalidBundle
  | typeError (msg : String)
deriving DecidableEq

/-- Passphrase-protected armored PGP private key, modelled by the
information its armor serializes: a fresh key identity and the protecting
passphrase. -/
structure ProtectedPrivateKey where
  keyId : Nat
  passphrase : String
deriving DecidableEq

/-- Armored PGP public key, modelled by the key identity it serializes. -/
structure PublicKey where
  keyId : Nat
deriving DecidableEq

/-- Private key after a successful passphrase unlock. -/
structure UnlockedPrivateKey where
  keyId : Nat
deriving DecidableEq

/-- UTF-8 bytes of an armored protected private key.  TextEncoder and
TextDecoder are inverse on armored (ASCII) text, so the byte string is
modelled by the content it encodes. -/
structure KeyBytes where
  content : ProtectedPrivateKey
deriving DecidableEq

/-- TextEncoder().encode applied to an armored private key
(src/encryption/hybrid.ts line 44). -/
def textEncode (privateKey : ProtectedPrivateKey) : KeyBytes :=
  ⟨privateKey⟩

/-- TextDecoder().decode applied to recovered private-key bytes
(src/encryption/hybrid.ts line 65). -/
def textDecode (bytes : KeyBytes) : ProtectedPrivateKey :=
  bytes.content

/-- Parsed PGP message: ciphertext of some text under the public key with
the given identity; the tampered flag records byte-level corruption of an
otherwise well-framed message. -/
structure PgpMessage where
  keyId : Nat
  text : String
  tampered : Bool
deriving DecidableEq

/-- Armored PGP message field of a bundle: either a well-framed message or
an arbitrary string that does not parse as PGP armor. -/
inductive ArmoredMessage
  | ok (message : PgpMessage)
  | malformed (raw : String)
deriving DecidableEq

/-- Modelled from the spec: generateProtectedKeypair of the Asymmetric
Cryptosystem capability (openpgp.generateKey in src/encryption/pgp.ts,
external).  A fresh keypair is produced per call; freshness is made
explicit by the nonce argument supplied by the caller context. -/
def generatePGPKeys (password : String) (nonce : Nat) :
    ProtectedPrivateKey × PublicKey :=
  (⟨nonce, password⟩, ⟨nonce⟩)

/-- Modelled from the spec: encryptUnderPublicKey of the Asymmetric
Cryptosystem capability (openpgp.encrypt with openpgp.createMessage and
openpgp.readKey, external). -/
def pgpEncrypt (text : String) (key : PublicKey) : ArmoredMessage :=
  .ok ⟨key.keyId, text, false⟩

/-- Modelled from the spec: openpgp.readMessage (external); fails on input
that does not parse as an armored message, a corruption detected at the
payload-decryption step. -/
def readMessage (armoredMessage : ArmoredMessage) :
    Except HybridError PgpMessage :=
  match armoredMessage with
  | .ok m => .ok m
  | .malformed _ => .error .payloadIntegrity

/-- Modelled from the spec: unlockPrivateKey of the Asymmetric
Cryptosystem capability (openpgp.decryptKey with openpgp.readPrivateKey,
external); fails with a password-mismatch signal on a wrong passphrase. -/
def decryptKey (privateKey : ProtectedPrivateKey) (passphrase : String) :
    Except HybridError UnlockedPrivateKey :=
  if privateKey.passphrase = passphrase then .ok ⟨privateKey.keyId⟩
  else .error .password

/-- Modelled from the spec: decryptWithPrivateKey of the Asymmetric
Cryptosystem capability (openpgp.decrypt, external); fails on integrity
violation, that is on a tampered message or a key that does not match the
encryption key. -/
def pgpDecrypt (message : PgpMessage) (key : UnlockedPrivateKey) :
    Except HybridError String :=
  if message.tampered then .error .payloadIntegrity
  else if message.keyId = key.keyId then .ok message.text
  else .error .payloadIntegrity

/-- Handle to the beacon network (HttpChainClient over HttpCachingChain in
src/encryption/timelock.ts); the id records which construction produced
it. -/
structure Client where
  url : String
  id : Nat
deriving DecidableEq

/-- Explicit network-facing state threaded through the embedding: the
module-level cachedClient variable of src/encryption/timelock.ts, the
number of client constructions performed, and the number of beacon network
queries made. -/
structure NetState where
  cachedClient : Option Client
  clientsConstructed : Nat
  beaconQueries : Nat
deriving DecidableEq

/-- getChainClient from src/encryption/timelock.ts: return the cached
client if one exists, otherwise construct one, cache it and return it. -/
def getChainClient (env : Env) (s : NetState) : Client × NetState :=
  match s.cachedClient with
  | some cached => (cached, s)
  | none =>
      let client : Client := ⟨env.DRAND_CHAIN_URL, s.clientsConstructed⟩
      (client, { s with cachedClient := some client
                        clientsConstructed := s.clientsConstructed + 1 })

/-- Time-locked blob: either a well-framed tlock ciphertext, which records
the round it is sealed for, the payload and a corruption flag, or an
arbitrary string that does not parse as a tlock blob. -/
inductive TLBlob
  | sealed (round : Int) (payload : KeyBytes) (tampered : Bool)
  | garbage (raw : String)
deriving DecidableEq

/-- Ceiling division of integers, for a positive divisor. -/
def ceilDiv (a b : Int) : Int :=
  -((-a) / b)

/-- Modelled from the spec: roundAt of tlock-js (external), the pure local
round computation — the round number for an unlock instant (in
milliseconds) is ceil of the time elapsed since genesis divided by the
chain period, plus one, clamped to be at least 1.  Genesis time and period
of the chain record are in seconds as in CHAIN_INFO, hence the conversion
to milliseconds. -/
def roundAt (timeMs : Int) (chain : ChainInfo) : Int :=
  max 1 (ceilDiv (timeMs - chain.genesis_time * 1000) (chain.period * 1000) + 1)

/-- Modelled from the spec: timelockEncrypt of tlock-js (external):
seal the payload for the given round.  One beacon query is accounted for,
the possible chain-metadata fetch of step 5 of the encryption flow. -/
def timelockEncrypt (roundNumber : Int) (payload : KeyBytes)
    (client : Client) (s : NetState) : TLBlob × NetState :=
  (.sealed roundNumber payload false,
   { s with beaconQueries := s.beaconQueries + 1 })

/-- Modelled from the spec: timelockDecrypt of tlock-js (external).  A
blob that does not parse fails before any network access; a well-framed
blob costs one beacon query for the round signature, then fails
deterministically when the beacon has not yet reached the sealed round,
fails verification when the blob is corrupted, and otherwise recovers the
payload.  The currentRound argument is the latest round the beacon has
published. -/
def timelockDecrypt (blob : TLBlob) (client : Client) (currentRound : Int)
    (s : NetState) : Except HybridError KeyBytes × NetState :=
  match blob with
  | .garbage _ => (.error .timeLock, s)
  | .sealed round payload tampered =>
      let s1 := { s with beaconQueries := s.beaconQueries + 1 }
      if currentRound < round then (.error .timeLockNotYetAvailable, s1)
      else if tampered then (.error .timeLock, s1)
      else (.ok payload, s1)

/-- JavaScript Date value: its time is none when the timestamp is NaN. -/
structure JsDate where
  timeMs : Option Int
deriving DecidableEq

/-- encryptWithTimelock from src/encryption/timelock.ts: reject a missing
or invalid unlock date with a TypeError before anything else, otherwise
compute the round for the unlock timestamp and seal the data for that
round with the cached chain client. -/
def encryptWithTimelock (env : Env) (data : KeyBytes)
    (unlockDate : Option JsDate) (s : NetState) :
    Except HybridError (TLBlob × Int) × NetState :=
  match unlockDate with
  | none => (.error (.typeError "unlockDate must be a valid Date"), s)
  | some d =>
      match d.timeMs with
      | none => (.error (.typeError "unlockDate must be a valid Date"), s)
      | some timestampMilliseconds =>
          let roundNumber := roundAt timestampMilliseconds (CHAIN_INFO env)
          let (client, s1) := getChainClient env s
          let (encrypted, s2) := timelockEncrypt roundNumber data client s1
          (.ok (encrypted, roundNumber), s2)

/-- decryptWithTimelock from src/encryption/timelock.ts: decrypt a
previously time-locked blob with the cached chain client (the byte
normalization of the result is the identity on content). -/
def decryptWithTimelock (env : Env) (currentRound : Int) (encrypted : TLBlob)
    (s : NetState) : Except HybridError KeyBytes × NetState :=
  let (client, s1) := getChainClient env s
  timelockDecrypt encrypted client currentRound s1

/-- Duration presets from src/types.ts. -/
inductive Duration
  | min
  | month
  | year
deriving DecidableEq

/-- DURATION_MS table from src/encryption/hybrid.ts. -/
def DURATION_MS : Duration → Int
  | .min => 60 * 1000
  | .month => 30 * 24 * 60 * 60 * 1000
  | .year => 365 * 24 * 60 * 60 * 1000

/-- EncryptionConfig from src/types.ts. -/
structure EncryptionConfig where
  password : String
  duration : Duration
deriving DecidableEq

/-- EncryptionConfigWithCustomDuration from src/types.ts. -/
structure EncryptionConfigWithCustomDuration where
  password : String
  durationMs : Int
deriving DecidableEq

/-- Union argument type of hybridEncrypt: a preset config or a config with
an explicit custom duration (the durationMs field being present is what
isCustomDurationConfig tests in the source). -/
inductive ConfigArg
  | plain (config : EncryptionConfig)
  | custom (config : EncryptionConfigWithCustomDuration)
deriving DecidableEq

/-- isCustomDurationConfig from src/encryption/hybrid.ts: tests whether
the config carries a durationMs field. -/
def isCustomDurationConfig : ConfigArg → Bool
  | .custom _ => true
  | .plain _ => false

/-- getDurationMs from src/encryption/hybrid.ts: a custom config
contributes its durationMs field exactly, a preset config is resolved
through the DURATION_MS table. -/
def getDurationMs (config : ConfigArg) : Int :=
  if isCustomDurationConfig config then
    match config with
    | .custom c => c.durationMs
    | .plain c => DURATION_MS c.duration
  else
    match config with
    | .custom c => c.durationMs
    | .plain c => DURATION_MS c.duration

/-- Password field of either config form. -/
def ConfigArg.password : ConfigArg → String
  | .plain config => config.password
  | .custom config => config.password

/-- EncryptedData bundle from src/types.ts: the five-field artifact of one
encryption. -/
structure EncryptedData where
  publicKey : PublicKey
  encryptedData : ArmoredMessage
  timelockedPrivateKey : TLBlob
  unlockTime : JsDate
  roundNumber : Int
deriving DecidableEq

/-- hybridEncrypt from src/encryption/hybrid.ts.  The now argument is the
value of Date.now() at the call and nonce makes the freshness of the
generated keypair explicit. -/
def hybridEncrypt (env : Env) (now : Int) (nonce : Nat) (data : String)
    (config : ConfigArg) (s : NetState) :
    Except HybridError EncryptedData × NetState :=
  let (privateKey, publicKey) := generatePGPKeys config.password nonce
  let encrypted := pgpEncrypt data publicKey
  let durationMs := getDurationMs config
  let unlockTime : JsDate := ⟨some (now + durationMs)⟩
  let privateKeyBytes := textEncode privateKey
  match encryptWithTimelock env privateKeyBytes (some unlockTime) s with
  | (.error e, s1) => (.error e, s1)
  | (.ok (timelockedKey, roundNumber), s1) =>
      (.ok { publicKey := publicKey
             encryptedData := encrypted
             timelockedPrivateKey := timelockedKey
             unlockTime := unlockTime
             roundNumber := roundNumber }, s1)

/-- hybridDecrypt from src/encryption/hybrid.ts: time-lock decryption of
the private-key blob first, then parsing of the armored payload, then the
passphrase unlock of the private key, then payload decryption.  The
currentRound argument is the latest round the beacon has published at the
time of the call. -/
def hybridDecrypt (env : Env) (currentRound : Int)
    (encryptedData : EncryptedData) (password : String) (s : NetState) :
    Except HybridError String × NetState :=
  match decryptWithTimelock env currentRound encryptedData.timelockedPrivateKey s with
  | (.error e, s1) => (.error e, s1)
  | (.ok privateKeyBytes, s1) =>
      let privateKey := textDecode privateKeyBytes
      match readMessage encryptedData.encryptedData with
      | .error e => (.error e, s1)
      | .ok message =>
          match decryptKey privateKey password with
          | .error e => (.error e, s1)
          | .ok key => (pgpDecrypt message key, s1)

/-- Round number reported by encryptWithTimelock, when it succeeds. -/
def encRoundNumber (env : Env) (data : KeyBytes) (unlockDate : Option JsDate)
    (s : NetState) : Option Int :=
  match (encryptWithTimelock env data unlockDate s).1 with
  | .ok (_, roundNumber) => some roundNumber
  | .error _ => none

/-- Sample environment used to instantiate the theorems on concrete
inputs. -/
def testEnv : Env :=
  ⟨"https://api.drand.sh", "52db9ba70e0cc0f6eaf7803dd07447a1f5477735fd3f661792ba94600c84e971",
   "83cf0f2896adee7eb8b5f01fcad3912212c437e0073e911fb90022d3e760183c8c4b450b6a0a6c3ac6a5776a2d1064510d1fec758c921cc22b0e17e63aaf4bcb5ed66304de9cf809bd274ca73bab4af5a6e9c76a4bc09e76eae8991ef5ece45a"⟩

/-- Empty network state: nothing cached, nothing constructed, no queries
made. -/
def s0 : NetState := ⟨none, 0, 0⟩

/-- Sample private-key bytes. -/
def testKeyBytes : KeyBytes := ⟨⟨0, "pw"⟩⟩

/-- Bundle sealed for round 10, used to instantiate theorems before the
unlock round. -/
def prematureBundle : EncryptedData :=
  { publicKey := ⟨0⟩
    encryptedData := .ok ⟨0, "hello", false⟩
    timelockedPrivateKey := .sealed 10 ⟨⟨0, "pw"⟩⟩ false
    unlockTime := ⟨some 1692803397000⟩
    roundNumber := 10 }

/-- The same bundle with different publicKey, unlockTime and roundNumber
fields, for the field-dependence instantiation. -/
def twinBundle : EncryptedData :=
  { prematureBundle with publicKey := ⟨99⟩, unlockTime := ⟨none⟩, roundNumber := 42 }

/-- Bundle whose time-lock round (1) has already been reached at round 5. -/
def openBundle : EncryptedData :=
  { publicKey := ⟨0⟩
    encryptedData := .ok ⟨0, "hello", false⟩
    timelockedPrivateKey := .sealed 1 ⟨⟨0, "pw"⟩⟩ false
    unlockTime := ⟨some 0⟩
    roundNumber := 1 }

/-- openBundle with a corrupted payload message. -/
def tamperedBundle : EncryptedData :=
  { openBundle with encryptedData := .ok ⟨0, "hello", true⟩ }

/-- Bundle whose encryptedData field is not well-formed PGP armor while
its time-locked key blob is well-framed. -/
def malformedBundle : EncryptedData :=
  { publicKey := ⟨0⟩
    encryptedData := .malformed "not pgp armor"
    timelockedPrivateKey := .sealed 1 ⟨⟨0, "pw"⟩⟩ false
    unlockTime := ⟨some 0⟩
    roundNumber := 1 }

/-- Sample preset configuration. -/
def demoConfig : ConfigArg := .plain ⟨"pw", .min⟩

/-- Bundle produced by hybridEncrypt at the genesis instant with
demoConfig (one minute duration, hence round 21). -/
def demoBundle : EncryptedData :=
  { publicKey := ⟨0⟩
    encryptedData := .ok ⟨0, "hello", false⟩
    timelockedPrivateKey := .sealed 21 ⟨⟨0, "pw"⟩⟩ false
    unlockTime := ⟨some 1692803427000⟩
    roundNumber := 21 }

/-- Network state after that encryption: client cached, one construction,
one beacon query. -/
def demoState1 : NetState := ⟨some ⟨"https://api.drand.sh", 0⟩, 1, 1⟩

theorem getChainClient_beaconQueries (env : Env) (s : NetState) :
    (getChainClient env s).2.beaconQueries = s.beaconQueries := by
  rcases s with ⟨cc, k, q⟩
  cases cc <;> rfl

theorem encRoundNumber_some (env : Env) (d : KeyBytes) (t : Int) (s : NetState) :
    encRoundNumber env d (some ⟨some t⟩) s = some (roundAt t (CHAIN_INFO env)) := by
  rcases hg : getChainClient env s with ⟨c, s1⟩
  simp [encRoundNumber, encryptWithTimelock, timelockEncrypt, hg]

theorem hybridEncrypt_ok (env : Env) (now : Int) (nonce : Nat) (data : String)
    (config : ConfigArg) (s : NetState) :
    hybridEncrypt env now nonce data config s =
      (.ok { publicKey := ⟨nonce⟩
             encryptedData := .ok ⟨nonce, data, false⟩
             timelockedPrivateKey :=
               .sealed (roundAt (now + getDurationMs config) (CHAIN_INFO env))
                 ⟨⟨nonce, config.password⟩⟩ false
             unlockTime := ⟨some (now + getDurationMs config)⟩
             roundNumber := roundAt (now + getDurationMs config) (CHAIN_INFO env) },
       { (getChainClient env s).2 with
           beaconQueries := (getChainClient env s).2.beaconQueries + 1 }) := by
  rcases hg : getChainClient env s with ⟨c, s1⟩
  simp [hybridEncrypt, encryptWithTimelock, generatePGPKeys, pgpEncrypt,
        textEncode, timelockEncrypt, hg]

/-- C1: in hybridDecrypt the time-lock gate always comes first: whenever
time-lock decryption of the timelockedPrivateKey blob fails, hybridDecrypt
fails with that same error for every password, correct or not, and never
returns plaintext. -/
theorem hybridDecrypt_timelock_gate_first
    (env : Env) (currentRound : Int) (bundle : EncryptedData) (s : NetState)
    (e : HybridError)
    (h : (decryptWithTimelock env currentRound bundle.timelockedPrivateKey s).1 = .error e)
    (password : String) :
    (hybridDecrypt env currentRound bundle password s).1 = .error e := by
  rcases hd : decryptWithTimelock env currentRound bundle.timelockedPrivateKey s with ⟨res, s1⟩
  rw [hd] at h
  simp only at h
  subst h
  simp [hybridDecrypt, hd]

/-- C1 instantiated: a bundle sealed for round 10, decrypted while the
beacon is at round 3, fails even with the correct password. -/
theorem hybridDecrypt_timelock_gate_first_witness :
    (hybridDecrypt testEnv 3 prematureBundle "pw" s0).1 =
      .error .timeLockNotYetAvailable :=
  hybridDecrypt_timelock_gate_first testEnv 3 prematureBundle s0
    .timeLockNotYetAvailable (by decide) "pw"

/-- C9: hybridDecrypt reads only the timelockedPrivateKey and
encryptedData fields of the bundle and the password: two bundles agreeing
on those two fields decrypt identically, whatever their publicKey,
unlockTime and roundNumber fields hold. -/
theorem hybridDecrypt_depends_only_on_key_and_payload
    (env : Env) (currentRound : Int) (b1 b2 : EncryptedData)
    (password : String) (s : NetState)
    (hk : b1.timelockedPrivateKey = b2.timelockedPrivateKey)
    (hp : b1.encryptedData = b2.encryptedData) :
    hybridDecrypt env currentRound b1 password s =
      hybridDecrypt env currentRound b2 password s := by
  simp only [hybridDecrypt, hk, hp]

/-- C9 instantiated: two bundles differing in publicKey, unlockTime and
roundNumber decrypt identically. -/
theorem hybridDecrypt_depends_only_on_key_and_payload_witness :
    hybridDecrypt testEnv 3 prematureBundle "pw" s0 =
      hybridDecrypt testEnv 3 twinBundle "pw" s0 :=
  hybridDecrypt_depends_only_on_key_and_payload testEnv 3 prematureBundle twinBundle
    "pw" s0 rfl rfl

/-- C10: encryptWithTimelock rejects an invalid unlock date at its
boundary: a missing date or a date with a NaN timestamp yields the
TypeError immediately, with the network state returned unchanged — so no
round is computed, no client is constructed and no beacon query is made. -/
theorem encryptWithTimelock_rejects_invalid_date
    (env : Env) (data : KeyBytes) (unlockDate : Option JsDate) (s : NetState)
    (h : unlockDate = none ∨ unlockDate = some ⟨none⟩) :
    encryptWithTimelock env data unlockDate s =
      (.error (.typeError "unlockDate must be a valid Date"), s) := by
  rcases h with h | h <;> subst h <;> rfl

/-- C10 instantiated: a missing unlock date is rejected with the state
untouched. -/
theorem encryptWithTimelock_rejects_invalid_date_witness :
    encryptWithTimelock testEnv testKeyBytes none s0 =
      (.error (.typeError "unlockDate must be a valid Date"), s0) :=
  encryptWithTimelock_rejects_invalid_date testEnv testKeyBytes none s0 (Or.inl rfl)

theorem ceilDiv_le_ceilDiv {a1 a2 b : Int} (hb : 0 < b) (h : a1 ≤ a2) :
    ceilDiv a1 b ≤ ceilDiv a2 b := by
  unfold ceilDiv
  have := Int.ediv_le_ediv hb (neg_le_neg h)
  omega

theorem ceilDiv_add_one {a b : Int} (hb : b ≠ 0) :
    ceilDiv (a + b) b = ceilDiv a b + 1 := by
  unfold ceilDiv
  have hrw : (-(a + b)) = -a + (-1) * b := by ring
  rw [hrw, Int.add_mul_ediv_right _ _ hb]
  ring

theorem ceilDiv_nonneg {a b : Int} (ha : 0 ≤ a) (hb : 0 < b) :
    0 ≤ ceilDiv a b := by
  unfold ceilDiv
  have h1 : (-a) / b ≤ 0 / b := Int.ediv_le_ediv hb (by omega)
  rw [Int.zero_ediv] at h1
  omega

theorem roundAt_mono {chain : ChainInfo} (hp : 0 < chain.period) {t1 t2 : Int}
    (h : t1 ≤ t2) : roundAt t1 chain ≤ roundAt t2 chain := by
  unfold roundAt
  have hb : 0 < chain.period * 1000 := by positivity
  have hc := ceilDiv_le_ceilDiv hb
    (show t1 - chain.genesis_time * 1000 ≤ t2 - chain.genesis_time * 1000 by omega)
  exact max_le_max (le_refl 1) (by omega)

theorem roundAt_strict {chain : ChainInfo} (hp : 0 < chain.period) {t1 t2 : Int}
    (hg : chain.genesis_time * 1000 ≤ t1)
    (h : t1 + chain.period * 1000 ≤ t2) :
    roundAt t1 chain < roundAt t2 chain := by
  have hb : 0 < chain.period * 1000 := by positivity
  have hc1 : 0 ≤ ceilDiv (t1 - chain.genesis_time * 1000) (chain.period * 1000) :=
    ceilDiv_nonneg (by omega) hb
  have hstep : ceilDiv (t1 - chain.genesis_time * 1000 + chain.period * 1000)
      (chain.period * 1000) =
      ceilDiv (t1 - chain.genesis_time * 1000) (chain.period * 1000) + 1 :=
    ceilDiv_add_one (by omega)
  have hmono : ceilDiv (t1 - chain.genesis_time * 1000 + chain.period * 1000)
      (chain.period * 1000) ≤
      ceilDiv (t2 - chain.genesis_time * 1000) (chain.period * 1000) :=
    ceilDiv_le_ceilDiv hb (by omega)
  unfold roundAt
  have h1 : max 1 (ceilDiv (t1 - chain.genesis_time * 1000) (chain.period * 1000) + 1) =
      ceilDiv (t1 - chain.genesis_time * 1000) (chain.period * 1000) + 1 :=
    max_eq_right (by omega)
  have h2 : max 1 (ceilDiv (t2 - chain.genesis_time * 1000) (chain.period * 1000) + 1) =
      ceilDiv (t2 - chain.genesis_time * 1000) (chain.period * 1000) + 1 :=
    max_eq_right (by omega)
  omega

/-- C3: the round number computed during encryption is a pure,
deterministic function of the unlock instant and the chain parameters of
CHAIN_INFO (genesis time 1692803367 s, period 3 s): it equals the ceiling
of the elapsed milliseconds since genesis divided by the period in
milliseconds, plus one, clamped to be at least 1 — and two computations
for the same instant agree whatever the payload and network state. -/
theorem round_deterministic_formula
    (env : Env) (t : Int) (d1 d2 : KeyBytes) (s1 s2 : NetState) :
    encRoundNumber env d1 (some ⟨some t⟩) s1 =
      some (max 1 (ceilDiv (t - 1692803367 * 1000) (3 * 1000) + 1)) ∧
    encRoundNumber env d2 (some ⟨some t⟩) s2 =
      encRoundNumber env d1 (some ⟨some t⟩) s1 := by
  rw [encRoundNumber_some, encRoundNumber_some]
  exact ⟨rfl, rfl⟩

/-- C4: for unlock instants at or after genesis, the round reported by
encryptWithTimelock is monotone in the instant, strictly so whenever the
two instants are at least one chain period (3000 ms) apart. -/
theorem round_monotone
    (env : Env) (d1 d2 : KeyBytes) (s1 s2 : NetState) (t1 t2 r1 r2 : Int)
    (hg : 1692803367 * 1000 ≤ t1) (ht : t1 < t2)
    (h1 : encRoundNumber env d1 (some ⟨some t1⟩) s1 = some r1)
    (h2 : encRoundNumber env d2 (some ⟨some t2⟩) s2 = some r2) :
    r1 ≤ r2 ∧ (t1 + 3 * 1000 ≤ t2 → r1 < r2) := by
  rw [encRoundNumber_some] at h1 h2
  have hr1 : r1 = roundAt t1 (CHAIN_INFO env) := by
    injection h1 with h1
    omega
  have hr2 : r2 = roundAt t2 (CHAIN_INFO env) := by
    injection h2 with h2
    omega
  subst hr1
  subst hr2
  have hp : (0 : Int) < (CHAIN_INFO env).period := by norm_num [CHAIN_INFO]
  refine ⟨roundAt_mono hp (le_of_lt ht), fun hsep => ?_⟩
  exact roundAt_strict hp (by simpa [CHAIN_INFO] using hg)
    (by simpa [CHAIN_INFO] using hsep)

/-- C4 instantiated: at the genesis instant and one period later the
rounds are 1 and 2. -/
theorem round_monotone_witness :
    (1 : Int) ≤ 2 ∧ ((1692803367000 : Int) + 3 * 1000 ≤ 1692803370000 → (1 : Int) < 2) :=
  round_monotone testEnv testKeyBytes testKeyBytes s0 s0
    1692803367000 1692803370000 1 2 (by decide) (by decide) (by decide) (by decide)

/-- C7: the named duration presets resolve to fixed millisecond values
(min to 60000 ms, month to 2592000000 ms, year to 31536000000 ms), a
config with an explicit durationMs field resolves to exactly that value,
and the unlock instant of every bundle produced by hybridEncrypt is the
call time plus the resolved duration. -/
theorem duration_resolution :
    (∀ p, getDurationMs (.plain ⟨p, .min⟩) = 60000) ∧
    (∀ p, getDurationMs (.plain ⟨p, .month⟩) = 2592000000) ∧
    (∀ p, getDurationMs (.plain ⟨p, .year⟩) = 31536000000) ∧
    (∀ p ms, getDurationMs (.custom ⟨p, ms⟩) = ms) ∧
    (∀ env now nonce data config s, ∃ bundle s1,
      hybridEncrypt env now nonce data config s = (.ok bundle, s1) ∧
      bundle.unlockTime = ⟨some (now + getDurationMs config)⟩) := by
  refine ⟨fun p => rfl, fun p => rfl, fun p => rfl, fun p ms => rfl,
    fun env now nonce data config s => ⟨_, _, hybridEncrypt_ok env now nonce data config s, rfl⟩⟩

/-- C8: the chain client is constructed lazily on first use and cached:
a first call on an empty cache constructs and caches exactly one client, a
call on a populated cache returns the cached handle with the state
untouched, and a repeated call after any call returns the identical handle
without constructing anything. -/
theorem getChainClient_cached_singleton (env : Env) (s : NetState) :
    (s.cachedClient = none →
      (getChainClient env s).2.cachedClient = some (getChainClient env s).1 ∧
      (getChainClient env s).2.clientsConstructed = s.clientsConstructed + 1) ∧
    (∀ c, s.cachedClient = some c → getChainClient env s = (c, s)) ∧
    getChainClient env (getChainClient env s).2 =
      ((getChainClient env s).1, (getChainClient env s).2) := by
  rcases s with ⟨cc, k, q⟩
  cases cc <;> simp [getChainClient]

/-- C8 instantiated: starting from the empty state, the first call caches
the client it returns and counts one construction, and the second call
returns the identical handle with the state unchanged. -/
theorem getChainClient_cached_singleton_witness :
    ((getChainClient testEnv s0).2.cachedClient = some (getChainClient testEnv s0).1 ∧
      (getChainClient testEnv s0).2.clientsConstructed = s0.clientsConstructed + 1) ∧
    getChainClient testEnv (getChainClient testEnv s0).2 =
      ((getChainClient testEnv s0).1, (getChainClient testEnv s0).2) :=
  ⟨(getChainClient_cached_singleton testEnv s0).1 rfl,
   (getChainClient_cached_singleton testEnv s0).2.2⟩

/-- C2: round trip — decrypting a bundle produced by hybridEncrypt with
the same password, once the beacon has reached the round sealed into the
bundle, returns exactly the original plaintext. -/
theorem hybrid_round_trip
    (env : Env) (now : Int) (nonce : Nat) (data : String) (config : ConfigArg)
    (s sDec : NetState) (bundle : EncryptedData) (s1 : NetState)
    (currentRound : Int)
    (hEnc : hybridEncrypt env now nonce data config s = (.ok bundle, s1))
    (hTime : bundle.roundNumber ≤ currentRound) :
    (hybridDecrypt env currentRound bundle config.password sDec).1 = .ok data := by
  rw [hybridEncrypt_ok, Prod.mk.injEq] at hEnc
  obtain ⟨hok, hst⟩ := hEnc
  injection hok with hb
  subst hb
  rcases hgd : getChainClient env sDec with ⟨c, sd1⟩
  have hTime' : ¬ currentRound < roundAt (now + getDurationMs config) (CHAIN_INFO env) := by
    simp only at hTime
    omega
  simp [hybridDecrypt, decryptWithTimelock, hgd, timelockDecrypt, hTime',
        textDecode, readMessage, decryptKey, pgpDecrypt]

/-- C2 instantiated: encrypting "hello" at the genesis instant with a one
minute duration and decrypting at round 25 (past the sealed round 21)
recovers "hello". -/
theorem hybrid_round_trip_witness :
    (hybridDecrypt testEnv 25 demoBundle demoConfig.password s0).1 = .ok "hello" :=
  hybrid_round_trip testEnv 1692803367000 0 "hello" demoConfig s0 s0 demoBundle
    demoState1 25 (by decide) (by decide)

/-- C5 counterexample: a bundle whose encryptedData field is malformed is
not rejected upfront: hybridDecrypt still attempts the time-lock gate,
performing a beacon query, and the failure surfaces as the payload layer
error, not as an invalid-bundle error. -/
theorem hybridDecrypt_no_validation_counterexample :
    (hybridDecrypt testEnv 5 malformedBundle "pw" s0).1 = .error .payloadIntegrity ∧
    (hybridDecrypt testEnv 5 malformedBundle "pw" s0).2.beaconQueries = 1 ∧
    HybridError.payloadIntegrity ≠ HybridError.invalidBundle := by
  refine ⟨by decide, by decide, by decide⟩

theorem decryptWithTimelock_def (env : Env) (currentRound : Int)
    (blob : TLBlob) (s : NetState) :
    decryptWithTimelock env currentRound blob s =
      timelockDecrypt blob (getChainClient env s).1 currentRound
        (getChainClient env s).2 := by
  rcases hg : getChainClient env s with ⟨c, s1⟩
  simp [decryptWithTimelock, hg]

theorem timelockDecrypt_error_kinds (blob : TLBlob) (c : Client)
    (currentRound : Int) (s : NetState) (e : HybridError) (s2 : NetState)
    (h : timelockDecrypt blob c currentRound s = (.error e, s2)) :
    e = .timeLock ∨ e = .timeLockNotYetAvailable := by
  rcases blob with ⟨r, payload, tampered⟩ | raw
  · simp only [timelockDecrypt] at h
    split_ifs at h <;> simp_all
  · simp only [timelockDecrypt] at h
    simp_all

theorem timelockDecrypt_sealed_queries (r : Int) (payload : KeyBytes)
    (tampered : Bool) (c : Client) (currentRound : Int) (s : NetState) :
    (timelockDecrypt (.sealed r payload tampered) c currentRound s).2.beaconQueries =
      s.beaconQueries + 1 := by
  simp only [timelockDecrypt]
  split_ifs <;> rfl

theorem hybridDecrypt_state (env : Env) (currentRound : Int)
    (bundle : EncryptedData) (password : String) (s : NetState) :
    (hybridDecrypt env currentRound bundle password s).2 =
      (decryptWithTimelock env currentRound bundle.timelockedPrivateKey s).2 := by
  rcases hres : decryptWithTimelock env currentRound bundle.timelockedPrivateKey s with ⟨res, sd⟩
  rcases res with e | kb
  · simp [hybridDecrypt, hres]
  · simp only [hybridDecrypt, hres]
    rcases hm : readMessage bundle.encryptedData with e2 | msg
    · simp [hm]
    · simp only [hm]
      rcases hk : decryptKey (textDecode kb) password with e3 | key <;> simp [hk]

/-- C5 amended: hybridDecrypt performs no bundle-shape validation and
never produces an invalid-bundle error; the time-lock gate is attempted
first on every bundle, so whenever the time-locked key blob is
well-framed a beacon query is made even if the other fields are
malformed. -/
theorem hybridDecrypt_no_shape_validation
    (env : Env) (currentRound : Int) (bundle : EncryptedData)
    (password : String) (s : NetState) :
    (hybridDecrypt env currentRound bundle password s).1 ≠ .error .invalidBundle ∧
    (∀ r payload tampered,
      bundle.timelockedPrivateKey = .sealed r payload tampered →
      (hybridDecrypt env currentRound bundle password s).2.beaconQueries =
        s.beaconQueries + 1) := by
  constructor
  · rcases hres : decryptWithTimelock env currentRound bundle.timelockedPrivateKey s with ⟨res, sd⟩
    rcases res with e | kb
    · have hkind : e = .timeLock ∨ e = .timeLockNotYetAvailable := by
        rw [decryptWithTimelock_def] at hres
        exact timelockDecrypt_error_kinds _ _ _ _ _ _ hres
      rcases hkind with rfl | rfl <;> simp [hybridDecrypt, hres]
    · simp only [hybridDecrypt, hres]
      rcases hm : readMessage bundle.encryptedData with e2 | msg
      · have : e2 = .payloadIntegrity := by
          rcases harm : bundle.encryptedData with m | raw <;> simp_all [readMessage]
        subst this
        simp [hm]
      · simp only [hm]
        rcases hk : decryptKey (textDecode kb) password with e3 | key
        · have : e3 = .password := by
            unfold decryptKey at hk
            split_ifs at hk <;> simp_all
          subst this
          simp [hk]
        · simp only [hk]
          unfold pgpDecrypt
          split_ifs <;> simp
  · intro r payload tampered hb
    rw [hybridDecrypt_state, decryptWithTimelock_def, hb,
      timelockDecrypt_sealed_queries, getChainClient_beaconQueries]

/-- C5 amended, instantiated: on a bundle with a well-framed key blob and
a malformed payload, hybridDecrypt does not produce an invalid-bundle
error and performs one beacon query. -/
theorem hybridDecrypt_no_shape_validation_witness :
    (hybridDecrypt testEnv 5 malformedBundle "pw" s0).1 ≠ .error .invalidBundle ∧
    (hybridDecrypt testEnv 5 malformedBundle "pw" s0).2.beaconQueries =
      s0.beaconQueries + 1 :=
  ⟨(hybridDecrypt_no_shape_validation testEnv 5 malformedBundle "pw" s0).1,
   (hybridDecrypt_no_shape_validation testEnv 5 malformedBundle "pw" s0).2
     1 ⟨⟨0, "pw"⟩⟩ false rfl⟩

/-- C6: decryption failures surface with their specific kind: a premature
attempt on a well-framed bundle fails with the not-yet-available time-lock
error, a wrong password after the round is reached fails with the password
error — a kind distinct from the gate-1 error, so a caller can tell too
early apart from wrong password — and a tampered payload with the correct
password fails with the payload-integrity error. -/
theorem decrypt_error_taxonomy
    (env : Env) (currentRound r : Int) (payload : KeyBytes)
    (bundle : EncryptedData) (password : String) (s : NetState) :
    ((HybridError.timeLockNotYetAvailable ≠ HybridError.password) ∧
     (bundle.timelockedPrivateKey = .sealed r payload false →
       currentRound < r →
       (hybridDecrypt env currentRound bundle password s).1 =
         .error .timeLockNotYetAvailable)) ∧
    (∀ msg, bundle.timelockedPrivateKey = .sealed r payload false →
      r ≤ currentRound →
      bundle.encryptedData = .ok msg →
      password ≠ (textDecode payload).passphrase →
      (hybridDecrypt env currentRound bundle password s).1 = .error .password) ∧
    (∀ msg, bundle.timelockedPrivateKey = .sealed r payload false →
      r ≤ currentRound →
      bundle.encryptedData = .ok msg →
      password = (textDecode payload).passphrase →
      msg.tampered = true →
      (hybridDecrypt env currentRound bundle password s).1 =
        .error .payloadIntegrity) := by
  rcases hgd : getChainClient env s with ⟨c, s1⟩
  refine ⟨⟨by simp, fun hb hlt => ?_⟩, fun msg hb hle hm hpw => ?_, fun msg hb hle hm hpw htmp => ?_⟩
  · simp [hybridDecrypt, decryptWithTimelock, hgd, hb, timelockDecrypt, hlt]
  · have hne : ¬ (textDecode payload).passphrase = password := fun hcontra => hpw hcontra.symm
    simp [hybridDecrypt, decryptWithTimelock, hgd, hb, hm, timelockDecrypt,
      Int.not_lt.mpr hle, readMessage, decryptKey, hne]
  · simp [hybridDecrypt, decryptWithTimelock, hgd, hb, hm, timelockDecrypt,
      Int.not_lt.mpr hle, readMessage, decryptKey, hpw.symm, pgpDecrypt, htmp]

/-- C6 instantiated: premature decryption of a round-10 bundle at round 0
yields the not-yet-available error, a wrong password on an unlocked bundle
yields the password error, and a tampered payload with the correct
password yields the payload-integrity error. -/
theorem decrypt_error_taxonomy_witness :
    (hybridDecrypt testEnv 0 prematureBundle "pw" s0).1 =
      .error .timeLockNotYetAvailable ∧
    (hybridDecrypt testEnv 5 openBundle "bad" s0).1 = .error .password ∧
    (hybridDecrypt testEnv 5 tamperedBundle "pw" s0).1 = .error .payloadIntegrity :=
  ⟨(decrypt_error_taxonomy testEnv 0 10 ⟨⟨0, "pw"⟩⟩ prematureBundle "pw" s0).1.2
      rfl (by decide),
   (decrypt_error_taxonomy testEnv 5 1 ⟨⟨0, "pw"⟩⟩ openBundle "bad" s0).2.1
      ⟨0, "hello", false⟩ rfl (by decide) rfl (by decide),
   (decrypt_error_taxonomy testEnv 5 1 ⟨⟨0, "pw"⟩⟩ tamperedBundle "pw" s0).2.2
      ⟨0, "hello", true⟩ rfl (by decide) rfl rfl rfl⟩

end PTC
